import Mathlib

/-!
Verification of the backend of the protocol-content-understanding-schema
repository.  The definitions below are a shallow embedding of
`backend/app/services/content_understanding.py` (the Azure Content
Understanding client), of the relevant parts of `backend/app/api/routes.py`
(the HTTP entrypoints) and of `backend/app/config.py` (the configuration
gate).  Remote HTTP interactions are modelled by an environment supplying
the responses; the embedding records the requests that are issued so that
"no network call" properties can be stated.
-/

namespace ProtocolCU

/-- A Python/JSON value as it appears in request and response bodies.
Numbers that the provider sends (such as confidence scores) are carried as
rationals; the code never performs arithmetic on them, it only moves them
around. -/
inductive PyValue where
  | none
  | bool (b : Bool)
  | int (n : Int)
  | num (q : Rat)
  | str (s : String)
  | list (xs : List PyValue)
  | dict (kvs : List (String × PyValue))

/-- Python truthiness, as used by `all(...)`, `x or y` and `if not x`. -/
def PyValue.truthy : PyValue → Bool
  | .none => false
  | .bool b => b
  | .int n => decide (n ≠ 0)
  | .num q => decide (q ≠ 0)
  | .str s => decide (s ≠ "")
  | .list xs => !xs.isEmpty
  | .dict kvs => !kvs.isEmpty

/-- `x is None` — identity with the `None` singleton. -/
def PyValue.isNone : PyValue → Bool
  | .none => true
  | _ => false

/-- `d.get(k)` on a Python dict: the stored value, or `None` when the key
is absent. -/
def getOpt (kvs : List (String × PyValue)) (k : String) : PyValue :=
  (kvs.lookup k).getD PyValue.none

/-- `d.get(k, default)` on a Python dict. -/
def getOr (kvs : List (String × PyValue)) (k : String) (d : PyValue) : PyValue :=
  (kvs.lookup k).getD d

/-- `a or b` in Python: the first operand when truthy, otherwise the
second. -/
def pyOr (a b : PyValue) : PyValue :=
  if a.truthy then a else b

/-- An error raised inside the service.  `httpStatusError` embeds
`httpx.HTTPStatusError` (carrying the response status code and body text,
which is what the `except` clause reads); `exn` embeds every other raised
`Exception` through its message. -/
inductive PyError where
  | httpStatusError (status_code : Nat) (text : String)
  | exn (message : String)

/-- The message the `except` clauses of `analyze_document` put into the
result: `f"HTTP {status}: {detail}"` for an `httpx.HTTPStatusError`, and
`str(e)` for any other exception. -/
def excMessage : PyError → String
  | .httpStatusError code text => "HTTP " ++ toString code ++ ": " ++ text
  | .exn m => m

/-- One extracted field, from `app.models.ExtractedField`: name, loosely
typed value, optional confidence (the code stores whatever
`field_data.get("confidence")` returned, `None` when absent). -/
structure ExtractedField where
  field_name : String
  value : PyValue
  confidence : PyValue

/-- The response envelope, from `app.models.DocumentAnalysisResponse`.
`raw_result` keeps its default `None` on every code path of the service. -/
structure DocumentAnalysisResponse where
  document_id : String
  fields : List ExtractedField
  status : String
  error_message : Option String
  raw_result : Option PyValue

/-- Rendering of a Python value interpolated into an f-string.  String
values render as themselves; the opaque rendering of containers is never
exercised by any claim (only the provider error message, normally a
string, flows through it). -/
def pyStr : PyValue → String
  | .str s => s
  | .none => "None"
  | .bool true => "True"
  | .bool false => "False"
  | .int n => toString n
  | .num q => toString q
  | .list _ => "<list>"
  | .dict _ => "<dict>"

/-- The body of the `for field_name, field_data in fields_data.items()`
loop of `_parse_analysis_result`, for one entry: `continue` on a `None`
entry, resolve `value` as `field_data.get("value") or
field_data.get("content")`, append only when the resolved value
`is not None`.  Calling `.get` on a non-dict entry raises
`AttributeError`. -/
def extractField (field_name : String) (field_data : PyValue) :
    Except PyError (Option ExtractedField) :=
  match field_data with
  | .none => .ok Option.none
  | .dict kvs =>
    if (pyOr (getOpt kvs "value") (getOpt kvs "content")).isNone then
      .ok Option.none
    else
      .ok (some ⟨field_name, pyOr (getOpt kvs "value") (getOpt kvs "content"),
        getOpt kvs "confidence"⟩)
  | _ => .error (.exn "AttributeError: get")

/-- The whole extraction loop of `_parse_analysis_result`, in the
iteration order of the mapping. -/
def parseLoop : List (String × PyValue) → Except PyError (List ExtractedField)
  | [] => .ok []
  | (field_name, field_data) :: rest =>
    match extractField field_name field_data with
    | .error e => .error e
    | .ok Option.none => parseLoop rest
    | .ok (some f) =>
      match parseLoop rest with
      | .error e => .error e
      | .ok fs => .ok (f :: fs)

/-- `_parse_analysis_result` down to the field list:
`result.get("analyzeResult", {})`, then `.get("fields", {})`, then the
extraction loop.  A non-dict where a dict is expected raises
`AttributeError` (`.get` / `.items` is missing). -/
def parseFields (result : PyValue) : Except PyError (List ExtractedField) :=
  match result with
  | .dict kvs =>
    match getOr kvs "analyzeResult" (.dict []) with
    | .dict arkvs =>
      match getOr arkvs "fields" (.dict []) with
      | .dict fkvs => parseLoop fkvs
      | _ => .error (.exn "AttributeError: items")
    | _ => .error (.exn "AttributeError: get")
  | _ => .error (.exn "AttributeError: get")

/-- `_parse_analysis_result(document_id, result)`: wraps the extracted
fields in a `DocumentAnalysisResponse` with `status="success"`. -/
def parseAnalysisResult (document_id : String) (result : PyValue) :
    Except PyError DocumentAnalysisResponse :=
  match parseFields result with
  | .error e => .error e
  | .ok extracted_fields =>
    .ok ⟨document_id, extracted_fields, "success", Option.none, Option.none⟩

/-- The four settings read by `ContentUnderstandingService.__init__` from
`app.config.Settings` (environment-sourced strings, default `""`). -/
structure ServiceConfig where
  endpoint : String
  api_key : String
  api_version : String
  analyzer_name : String

/-- An HTTP response as the service observes it: status code, headers,
body text (read by the error paths) and the JSON decoding of the body. -/
structure HttpResponse where
  status_code : Nat
  headers : List (String × String)
  text : String
  body : PyValue

/-- A POST request issued by the service: target URL, headers, JSON body. -/
structure PostRequest where
  url : String
  headers : List (String × String)
  body : PyValue

/-- The remote side: the response to the submission POST and the response
to the i-th polling GET.  A transport-level failure (`httpx.RequestError`)
is an `Except.error`. -/
structure Env where
  postResult : Except PyError HttpResponse
  getResult : Nat → Except PyError HttpResponse

/-- `headers.get(k)` — the literal-key lookup the code performs on the
response headers. -/
def headerGet (headers : List (String × String)) (k : String) : Option String :=
  headers.lookup k

/-- The analyze URL built at line 61:
`f"{self.endpoint}/{self.analyzer_name}:analyze?api-version={self.api_version}"`. -/
def analyzeUrl (cfg : ServiceConfig) : String :=
  cfg.endpoint ++ "/" ++ cfg.analyzer_name ++ ":analyze?api-version=" ++ cfg.api_version

/-- The hardcoded test file URL of line 72 of `content_understanding.py`
(the TODO at lines 70-72 notes that uploading the file and using the real
URL is not implemented yet). -/
def TEST_FILE_URL : String :=
  "https://saprotocolextractions.blob.core.windows.net/container/labelingProjects/337f5cd0-eae9-4cc0-a252-fd0a8ddfdf35/test/Pfizer-1_split.pdf"

/-- The JSON body the service posts (lines 74-80): the hardcoded test
URL, independent of the callers input. -/
def requestBody : PyValue :=
  .dict [("inputs", .list [.dict [("url", .str TEST_FILE_URL)]])]

/-- The submission POST (lines 91-98): analyze URL, subscription-key and
content-type headers, hardcoded JSON body. -/
def submitRequest (cfg : ServiceConfig) : PostRequest :=
  ⟨analyzeUrl cfg,
   [("Ocp-Apim-Subscription-Key", cfg.api_key), ("Content-Type", "application/json")],
   requestBody⟩

/-- `str.lower()`, character by character (the provider statuses are
ASCII). -/
def pyLower (s : String) : String :=
  ⟨s.data.map Char.toLower⟩

/-- `result.get("status", "").lower()` at line 173: the empty string when
the key is absent, `AttributeError` when the payload is not a dict or the
stored value is not a string. -/
def pollStatusOf (body : PyValue) : Except PyError String :=
  match body with
  | .dict kvs =>
    match kvs.lookup "status" with
    | Option.none => .ok ""
    | some (.str s) => .ok (pyLower s)
    | some _ => .error (.exn "AttributeError: lower")
  | _ => .error (.exn "AttributeError: get")

/-- Lines 178-179: `result.get("error", {}).get("message", "Analysis
failed")`, rendered for the f-string. -/
def failMessageOf (body : PyValue) : Except PyError String :=
  match body with
  | .dict kvs =>
    match getOr kvs "error" (.dict []) with
    | .dict ekvs => .ok (pyStr (getOr ekvs "message" (.str "Analysis failed")))
    | _ => .error (.exn "AttributeError: get")
  | _ => .error (.exn "AttributeError: get")

/-- What one loop iteration of `_poll_for_result` does with the GET
response (lines 170-185): `raise_for_status` (httpx raises on 4xx/5xx),
then dispatch on the lowercased status — return the payload on
`succeeded`, raise on `failed`/`cancelled`, sleep and retry on
`notstarted`/`running`, raise on anything else. -/
inductive PollAction where
  | success (payload : PyValue)
  | failure (e : PyError)
  | retry

/-- The status dispatch of lines 175-185, for a given lowercased status
string. -/
def classifyStatus (status : String) (body : PyValue) : PollAction :=
  if status = "succeeded" then .success body
  else if status = "failed" ∨ status = "cancelled" then
    match failMessageOf body with
    | .error e => .failure e
    | .ok m => .failure (.exn ("Analysis " ++ status ++ ": " ++ m))
  else if status = "notstarted" ∨ status = "running" then .retry
  else .failure (.exn ("Unknown status: " ++ status))

/-- One poll iteration applied to a GET response. -/
def pollClassify (resp : HttpResponse) : PollAction :=
  if 400 ≤ resp.status_code then .failure (.httpStatusError resp.status_code resp.text)
  else
    match pollStatusOf resp.body with
    | .error e => .failure e
    | .ok status => classifyStatus status resp.body

/-- Outcome of the polling loop: the returned payload or the raised
error, together with how many GET requests were issued and how many sleep
intervals elapsed. -/
structure PollResult where
  result : Except PyError PyValue
  gets : Nat
  sleeps : Nat

/-- The `for attempt in range(max_retries)` loop of `_poll_for_result`,
with `remaining` iterations left starting at loop index `attempt`.
Falling off the end of the loop raises
`f"Analysis timed out after {max_retries * retry_interval} seconds"`. -/
def pollGo (env : Env) (api_key : String) (max_retries retry_interval : Nat) :
    Nat → Nat → PollResult
  | _, 0 =>
    ⟨.error (.exn ("Analysis timed out after " ++ toString (max_retries * retry_interval)
        ++ " seconds")), 0, 0⟩
  | attempt, r + 1 =>
    match env.getResult attempt with
    | .error e => ⟨.error e, 1, 0⟩
    | .ok resp =>
      match pollClassify resp with
      | .success payload => ⟨.ok payload, 1, 0⟩
      | .failure e => ⟨.error e, 1, 0⟩
      | .retry =>
        match pollGo env api_key max_retries retry_interval (attempt + 1) r with
        | ⟨res, g, s⟩ => ⟨res, g + 1, s + 1⟩

/-- `_poll_for_result(client, operation_location, max_retries,
retry_interval)` — defaults are 60 and 2. -/
def pollForResult (env : Env) (api_key : String) (max_retries retry_interval : Nat) :
    PollResult :=
  pollGo env api_key max_retries retry_interval 0 max_retries

/-- Outcome of the `try` block of `analyze_document` (lines 52-125):
either the parsed response or the first raised error, with the polling
counters. -/
structure TryResult where
  result : Except PyError DocumentAnalysisResponse
  gets : Nat
  sleeps : Nat

/-- The `try` block of `analyze_document`: POST the submission,
`raise_for_status`, require a truthy `Operation-Location` header, poll,
parse. -/
def tryAnalyze (cfg : ServiceConfig) (env : Env) (document_id : String) : TryResult :=
  match env.postResult with
  | .error e => ⟨.error e, 0, 0⟩
  | .ok resp =>
    if 400 ≤ resp.status_code then
      ⟨.error (.httpStatusError resp.status_code resp.text), 0, 0⟩
    else if headerGet resp.headers "Operation-Location" = Option.none ∨
        headerGet resp.headers "Operation-Location" = some "" then
      ⟨.error (.exn "No Operation-Location header in response"), 0, 0⟩
    else
      match pollForResult env cfg.api_key 60 2 with
      | ⟨.error e, g, s⟩ => ⟨.error e, g, s⟩
      | ⟨.ok result, g, s⟩ =>
        match parseAnalysisResult document_id result with
        | .error e => ⟨.error e, g, s⟩
        | .ok r => ⟨.ok r, g, s⟩

/-- The `not_configured` error message of lines 45-50. -/
def notConfiguredMessage : String :=
  "Azure Content Understanding credentials not fully configured. Please check AZURE_CONTENT_UNDERSTANDING_ENDPOINT, AZURE_CONTENT_UNDERSTANDING_KEY, AZURE_CONTENT_UNDERSTANDING_API_VERSION, and AZURE_CONTENT_UNDERSTANDING_ANALYZER_NAME."

/-- The `except` clauses of `analyze_document` (lines 127-141): a
`DocumentAnalysisResponse` with `status="error"` carrying the message of
the raised error. -/
def wrapError (document_id : String) (e : PyError) : DocumentAnalysisResponse :=
  ⟨document_id, [], "error", some (excMessage e), Option.none⟩

/-- Full outcome of one `analyze_document` call: the returned response
plus the observable network trace (submission POSTs issued, polling GETs
issued, sleeps elapsed). -/
structure AnalyzeOutcome where
  response : DocumentAnalysisResponse
  posts : List PostRequest
  gets : Nat
  sleeps : Nat

/-- `ContentUnderstandingService.analyze_document(content, filename)`.
The `document_id` argument stands for the `str(uuid.uuid4())` drawn at
line 41, before any remote interaction.  The configuration gate is
`not all([endpoint, api_key, api_version, analyzer_name])` — Python
truthiness on strings, i.e. any of the four being empty. -/
def analyze_document (cfg : ServiceConfig) (env : Env) (document_id : String)
    (content : List Nat) (filename : String) : AnalyzeOutcome :=
  if cfg.endpoint = "" ∨ cfg.api_key = "" ∨ cfg.api_version = "" ∨ cfg.analyzer_name = "" then
    ⟨⟨document_id, [], "not_configured", some notConfiguredMessage, Option.none⟩, [], 0, 0⟩
  else
    match tryAnalyze cfg env document_id with
    | ⟨.ok r, g, s⟩ => ⟨r, [submitRequest cfg], g, s⟩
    | ⟨.error e, g, s⟩ => ⟨wrapError document_id e, [submitRequest cfg], g, s⟩

/-- `file.filename or "unknown.pdf"` — Python `or` on an optional string:
the default replaces both `None` and the empty string. -/
def orDefault (s : Option String) (d : String) : String :=
  match s with
  | some v => if v = "" then d else v
  | Option.none => d

/-- Modelled from the spec: the synchronous route and the background task
invoke `analyze_document_from_url(document_url, filename)` on the
analysis client, but no method of that name is defined anywhere in the
source tree — only its call sites exist.  Per the spec, `analyze` on a
document URL is the composition submit → poll → parse, wrapped so that it
never raises past its own boundary and always returns a result object.
We therefore model the missing method as an arbitrary total function from
the document URL and filename to a `DocumentAnalysisResponse`, supplied
by the route environment. -/
def AnalyzeFromUrl : Type :=
  String → String → DocumentAnalysisResponse

/-- Environment of one `POST /api/v1/analyze` request: the outcome of
`storage_service.upload_file` (a `(file_id, public_url)` pair, or a
raised error) and the analysis client. -/
structure RouteEnv where
  uploadResult : Except PyError (String × String)
  analyzeFromUrl : AnalyzeFromUrl

/-- What the route hands back: a 200 response whose body is the analysis
result, or an `HTTPException(status_code, detail)`. -/
inductive RouteResponse where
  | ok (body : DocumentAnalysisResponse)
  | httpError (status_code : Nat) (detail : String)

/-- Observable outcome of one synchronous route invocation: the HTTP
response, the storage uploads performed (content, filename,
content type), the analysis invocations performed (document URL,
filename), and whether the uploaded file handle was closed. -/
structure RouteOutcome where
  response : RouteResponse
  uploads : List (List Nat × String × String)
  analyzeCalls : List (String × String)
  fileClosed : Bool

/-- The `POST /api/v1/analyze` handler of `routes.py` (lines 46-110):
read the upload, send it to storage, hand the resulting public URL to the
analysis client, return its result; convert any raised error into
`HTTPException(500, f"Failed to analyze document: {e}")`; close the file
in the `finally` block on every path. -/
def routeAnalyzeDocument (env : RouteEnv) (content : List Nat)
    (filename contentType : Option String) : RouteOutcome :=
  match env.uploadResult with
  | .error e =>
    ⟨.httpError 500 ("Failed to analyze document: " ++ excMessage e),
     [(content, orDefault filename "unknown.pdf", orDefault contentType "application/octet-stream")],
     [], true⟩
  | .ok (_file_id, public_url) =>
    ⟨.ok (env.analyzeFromUrl public_url (orDefault filename "unknown.pdf")),
     [(content, orDefault filename "unknown.pdf", orDefault contentType "application/octet-stream")],
     [(public_url, orDefault filename "unknown.pdf")], true⟩

/-- Body of the 200 response of `POST /api/v1/analyze/async`
(lines 159-163). -/
structure AsyncQueuedResponse where
  document_id : String
  status : String
  message : String

/-- Outcome of the async route: the immediate response plus the scheduled
background task arguments `(document_id, content, filename,
content_type)`. -/
structure AsyncOutcome where
  response : AsyncQueuedResponse
  task : String × List Nat × String × String

/-- The `POST /api/v1/analyze/async` handler (lines 123-172): draw a
fresh `document_id` (the argument stands for `str(uuid.uuid4())` at line
145), read the body, schedule `process_document_task`, and reply
`{document_id, status: "queued", message}` at once. -/
def analyze_document_async (document_id : String) (content : List Nat)
    (filename contentType : Option String) : AsyncOutcome :=
  ⟨⟨document_id, "queued",
    "Document queued for processing. Check status using document_id."⟩,
   (document_id, content, orDefault filename "unknown.pdf",
    orDefault contentType "application/octet-stream")⟩

/-! ## Helper lemmas -/

theorem classifyStatus_running (body : PyValue) :
    classifyStatus "running" body = PollAction.retry := rfl

theorem classifyStatus_succeeded (body : PyValue) :
    classifyStatus "succeeded" body = PollAction.success body := rfl

theorem pollClassify_retry (resp : HttpResponse) (hcode : resp.status_code < 400)
    (hst : pollStatusOf resp.body = Except.ok "running") :
    pollClassify resp = PollAction.retry := by
  unfold pollClassify
  rw [if_neg (by omega), hst]
  exact classifyStatus_running resp.body

theorem pollClassify_success (resp : HttpResponse) (hcode : resp.status_code < 400)
    (hst : pollStatusOf resp.body = Except.ok "succeeded") :
    pollClassify resp = PollAction.success resp.body := by
  unfold pollClassify
  rw [if_neg (by omega), hst]
  exact classifyStatus_succeeded resp.body

theorem pollGo_step_retry (env : Env) (api_key : String)
    (max_retries retry_interval attempt r : Nat) (resp : HttpResponse)
    (hget : env.getResult attempt = Except.ok resp)
    (hc : pollClassify resp = PollAction.retry) :
    pollGo env api_key max_retries retry_interval attempt (r + 1) =
      ⟨(pollGo env api_key max_retries retry_interval (attempt + 1) r).result,
       (pollGo env api_key max_retries retry_interval (attempt + 1) r).gets + 1,
       (pollGo env api_key max_retries retry_interval (attempt + 1) r).sleeps + 1⟩ := by
  simp only [pollGo, hget, hc]

theorem pollGo_step_success (env : Env) (api_key : String)
    (max_retries retry_interval attempt r : Nat) (resp : HttpResponse)
    (hget : env.getResult attempt = Except.ok resp)
    (hc : pollClassify resp = PollAction.success resp.body) :
    pollGo env api_key max_retries retry_interval attempt (r + 1) =
      ⟨Except.ok resp.body, 1, 0⟩ := by
  simp only [pollGo, hget, hc]

theorem pollGo_all_retry (env : Env) (api_key : String) (max_retries retry_interval : Nat) :
    ∀ r attempt,
      (∀ i, attempt ≤ i → i < attempt + r →
        ∃ resp, env.getResult i = Except.ok resp ∧ pollClassify resp = PollAction.retry) →
      pollGo env api_key max_retries retry_interval attempt r =
        ⟨Except.error (.exn ("Analysis timed out after "
            ++ toString (max_retries * retry_interval) ++ " seconds")), r, r⟩ := by
  intro r
  induction r with
  | zero => intro attempt _; rfl
  | succ n ih =>
    intro attempt h
    obtain ⟨resp, hget, hc⟩ := h attempt (Nat.le_refl _) (by omega)
    rw [pollGo_step_retry env api_key max_retries retry_interval attempt n resp hget hc,
      ih (attempt + 1) (fun i h1 h2 => h i (by omega) (by omega))]

theorem parseAnalysisResult_ok (document_id : String) (result : PyValue)
    (r : DocumentAnalysisResponse)
    (h : parseAnalysisResult document_id result = Except.ok r) :
    r.document_id = document_id ∧ r.status = "success" := by
  unfold parseAnalysisResult at h
  split at h
  · exact absurd h (by simp)
  · cases h
    exact ⟨rfl, rfl⟩

theorem tryAnalyze_ok (cfg : ServiceConfig) (env : Env) (document_id : String)
    (r : DocumentAnalysisResponse) (g s : Nat)
    (h : tryAnalyze cfg env document_id = ⟨Except.ok r, g, s⟩) :
    r.document_id = document_id ∧ r.status = "success" := by
  unfold tryAnalyze at h
  split at h
  · exact absurd h (by simp)
  · split at h
    · exact absurd h (by simp)
    · split at h
      · exact absurd h (by simp)
      · split at h
        · exact absurd h (by simp)
        · split at h
          · exact absurd h (by simp)
          · next heq =>
            cases h
            exact parseAnalysisResult_ok document_id _ r heq

theorem analyze_document_id (cfg : ServiceConfig) (env : Env) (document_id : String)
    (content : List Nat) (filename : String) :
    (analyze_document cfg env document_id content filename).response.document_id
      = document_id := by
  unfold analyze_document
  split
  · rfl
  · split
    · next r g s heq => exact (tryAnalyze_ok cfg env document_id r g s heq).1
    · rfl

theorem extractField_ok_some (field_name : String) (field_data : PyValue)
    (f : ExtractedField) (h : extractField field_name field_data = .ok (some f)) :
    f.field_name = field_name ∧ f.value.isNone = false ∧ field_data ≠ PyValue.none := by
  unfold extractField at h
  split at h
  · exact absurd h (by simp)
  · next kvs =>
    split at h
    · exact absurd h (by simp)
    · next hv =>
      cases h
      refine ⟨rfl, ?_, by intro hc; cases hc⟩
      cases hiso : (pyOr (getOpt kvs "value") (getOpt kvs "content")).isNone
      · rfl
      · exact absurd hiso hv
  · exact absurd h (by simp)

theorem parseLoop_sound (kvs : List (String × PyValue)) (fs : List ExtractedField)
    (h : parseLoop kvs = Except.ok fs) :
    ∀ f, f ∈ fs → f.value.isNone = false ∧
      ∃ fd, (f.field_name, fd) ∈ kvs ∧ fd ≠ PyValue.none := by
  induction kvs generalizing fs with
  | nil =>
    cases h
    intro f hf
    cases hf
  | cons pair rest ih =>
    obtain ⟨name, fdata⟩ := pair
    intro f hf
    unfold parseLoop at h
    split at h
    · exact absurd h (by simp)
    · next heq =>
      obtain ⟨fv, ⟨fd, hmem, hne⟩⟩ := ih fs h f hf
      exact ⟨fv, fd, List.mem_cons_of_mem _ hmem, hne⟩
    · next f0 heq =>
      split at h
      · exact absurd h (by simp)
      · next fs0 heq2 =>
        cases h
        rcases List.mem_cons.mp hf with hf0 | hfr
        · subst hf0
          obtain ⟨hn, hv, hne⟩ := extractField_ok_some name fdata f heq
          exact ⟨hv, fdata, by rw [hn]; exact List.mem_cons_self _ _, hne⟩
        · obtain ⟨fv, ⟨fd, hmem, hne⟩⟩ := ih fs0 heq2 f hfr
          exact ⟨fv, fd, List.mem_cons_of_mem _ hmem, hne⟩

/-! ## Concrete fixtures used by the witnesses -/

def cfgOk : ServiceConfig :=
  ⟨"https://cu.example.test/analyzers", "key-123", "2024-12-01", "protocol-analyzer"⟩

def cfgBlankKey : ServiceConfig :=
  ⟨"https://cu.example.test/analyzers", "", "2024-12-01", "protocol-analyzer"⟩

def respRunning : HttpResponse :=
  ⟨200, [], "", .dict [("status", .str "running")]⟩

def succeededBody : PyValue :=
  .dict [("status", .str "succeeded"),
         ("analyzeResult", .dict [("fields", .dict
           [("ProtocolNumber", .dict [("value", .str "ABC-1234-001"),
             ("confidence", .num ((95 : Rat) / 100))])])])]

def respSucceeded : HttpResponse :=
  ⟨200, [], "", succeededBody⟩

def resp202 : HttpResponse :=
  ⟨202, [("Operation-Location", "https://cu.example.test/op/1")], "", PyValue.none⟩

def respNoHeader : HttpResponse :=
  ⟨202, [], "", PyValue.none⟩

def envHappy : Env :=
  ⟨.ok resp202, fun i => if i < 2 then .ok respRunning else .ok respSucceeded⟩

def envNoHeader : Env :=
  ⟨.ok respNoHeader, fun _ => .error (.exn "not reached")⟩

def envAllRunning : Env :=
  ⟨.ok resp202, fun _ => .ok respRunning⟩

/-! ## Claims -/

/-- C3: whenever at least one of the four settings {endpoint, key,
api-version, analyzer name} is blank, `analyze_document` returns a result
with `status="not_configured"` and issues no POST, no GET and no sleep. -/
theorem C3_not_configured_gate (cfg : ServiceConfig) (env : Env) (document_id : String)
    (content : List Nat) (filename : String)
    (h : cfg.endpoint = "" ∨ cfg.api_key = "" ∨ cfg.api_version = "" ∨
      cfg.analyzer_name = "") :
    (analyze_document cfg env document_id content filename).response.status
        = "not_configured" ∧
    (analyze_document cfg env document_id content filename).response.error_message
        = some notConfiguredMessage ∧
    (analyze_document cfg env document_id content filename).posts = [] ∧
    (analyze_document cfg env document_id content filename).gets = 0 ∧
    (analyze_document cfg env document_id content filename).sleeps = 0 := by
  unfold analyze_document
  rw [if_pos h]
  exact ⟨rfl, rfl, rfl, rfl, rfl⟩

theorem C3_not_configured_gate_witness :
    (cfgBlankKey.endpoint = "" ∨ cfgBlankKey.api_key = "" ∨ cfgBlankKey.api_version = ""
      ∨ cfgBlankKey.analyzer_name = "") ∧
    ((analyze_document cfgBlankKey envHappy "doc-1" [37] "doc.pdf").response.status
        = "not_configured" ∧
     (analyze_document cfgBlankKey envHappy "doc-1" [37] "doc.pdf").response.error_message
        = some notConfiguredMessage ∧
     (analyze_document cfgBlankKey envHappy "doc-1" [37] "doc.pdf").posts = [] ∧
     (analyze_document cfgBlankKey envHappy "doc-1" [37] "doc.pdf").gets = 0 ∧
     (analyze_document cfgBlankKey envHappy "doc-1" [37] "doc.pdf").sleeps = 0) :=
  ⟨Or.inr (Or.inl rfl),
   C3_not_configured_gate cfgBlankKey envHappy "doc-1" [37] "doc.pdf" (Or.inr (Or.inl rfl))⟩

/-- C4: for every input and every behaviour of the remote side,
`analyze_document` returns a `DocumentAnalysisResponse` (it is a total
function), the returned `document_id` is the locally drawn one, the
status is one of `not_configured`, `success`, `error`, and in the error
case the message is exactly the message of the error raised inside the
`try` block (submit, poll or parse). -/
theorem C4_analyze_never_raises (cfg : ServiceConfig) (env : Env) (document_id : String)
    (content : List Nat) (filename : String) :
    (analyze_document cfg env document_id content filename).response.document_id
        = document_id ∧
    ((analyze_document cfg env document_id content filename).response.status
        = "not_configured" ∨
     (analyze_document cfg env document_id content filename).response.status
        = "success" ∨
     ((analyze_document cfg env document_id content filename).response.status
        = "error" ∧
      ∃ e, (tryAnalyze cfg env document_id).result = Except.error e ∧
        (analyze_document cfg env document_id content filename).response.error_message
          = some (excMessage e))) := by
  refine ⟨analyze_document_id cfg env document_id content filename, ?_⟩
  unfold analyze_document
  split
  · exact Or.inl rfl
  · split
    · next r g s heq =>
      exact Or.inr (Or.inl (tryAnalyze_ok cfg env document_id r g s heq).2)
    · next e g s heq =>
      exact Or.inr (Or.inr ⟨rfl, e, by rw [heq], rfl⟩)

/-- C9: the `document_id` of every analysis result — synchronous service
call or asynchronous route — is the locally generated UUID: it does not
depend on the remote responses in any way, and two invocations that drew
different UUIDs return different ids even on identical document bytes. -/
theorem C9_document_id_client_side (cfg : ServiceConfig) (env env2 : Env)
    (document_id document_id2 : String) (content : List Nat) (filename : String)
    (fo co : Option String) (hne : document_id ≠ document_id2) :
    (analyze_document cfg env document_id content filename).response.document_id
        = document_id ∧
    (analyze_document cfg env document_id content filename).response.document_id
        = (analyze_document cfg env2 document_id content filename).response.document_id ∧
    (analyze_document_async document_id content fo co).response.document_id
        = document_id ∧
    (analyze_document cfg env document_id content filename).response.document_id
        ≠ (analyze_document cfg env2 document_id2 content filename).response.document_id := by
  refine ⟨analyze_document_id cfg env document_id content filename, ?_, rfl, ?_⟩
  · rw [analyze_document_id cfg env document_id content filename,
      analyze_document_id cfg env2 document_id content filename]
  · rw [analyze_document_id cfg env document_id content filename,
      analyze_document_id cfg env2 document_id2 content filename]
    exact hne

theorem C9_document_id_client_side_witness :
    (analyze_document cfgOk envHappy "uuid-aaa" [37] "doc.pdf").response.document_id
        = "uuid-aaa" ∧
    (analyze_document cfgOk envHappy "uuid-aaa" [37] "doc.pdf").response.document_id
        = (analyze_document cfgOk envNoHeader "uuid-aaa" [37] "doc.pdf").response.document_id ∧
    (analyze_document_async "uuid-aaa" [37] (some "doc.pdf") (some "application/pdf")).response.document_id
        = "uuid-aaa" ∧
    (analyze_document cfgOk envHappy "uuid-aaa" [37] "doc.pdf").response.document_id
        ≠ (analyze_document cfgOk envNoHeader "uuid-bbb" [37] "doc.pdf").response.document_id :=
  C9_document_id_client_side cfgOk envHappy envNoHeader "uuid-aaa" "uuid-bbb" [37] "doc.pdf"
    (some "doc.pdf") (some "application/pdf") (by decide)

/-- C6: when every polling GET within the attempt cap reports status
`running`, the poll loop ends with the timeout error
`f"Analysis timed out after {max_retries * retry_interval} seconds"`,
after exactly `max_retries` GET attempts (and as many sleeps).  The claim
instance `max_retries=2, retry_interval=0` is the witness below. -/
theorem C6_poll_timeout (env : Env) (api_key : String) (max_retries retry_interval : Nat)
    (h : ∀ i, i < max_retries → ∃ resp, env.getResult i = Except.ok resp ∧
      resp.status_code < 400 ∧ pollStatusOf resp.body = Except.ok "running") :
    pollForResult env api_key max_retries retry_interval =
      ⟨Except.error (.exn ("Analysis timed out after "
          ++ toString (max_retries * retry_interval) ++ " seconds")),
       max_retries, max_retries⟩ := by
  refine pollGo_all_retry env api_key max_retries retry_interval max_retries 0 ?_
  intro i h1 h2
  obtain ⟨resp, hget, hcode, hst⟩ := h i (by omega)
  exact ⟨resp, hget, pollClassify_retry resp hcode hst⟩

theorem C6_poll_timeout_witness :
    pollForResult envAllRunning "key-123" 2 0 =
      ⟨Except.error (.exn ("Analysis timed out after "
          ++ toString (2 * 0) ++ " seconds")), 2, 2⟩ :=
  C6_poll_timeout envAllRunning "key-123" 2 0
    (fun _i _hi => ⟨respRunning, rfl, by decide, rfl⟩)

/-- C5: with a configured service, a successful submission, and poll
responses whose statuses are running, running, succeeded, the poll loop
issues exactly three GETs with exactly two sleeps and returns the third
payload, and the analyze call returns the parse of that third payload. -/
theorem C5_poll_three_rounds (cfg : ServiceConfig) (env : Env) (document_id : String)
    (content : List Nat) (filename : String) (post : HttpResponse) (opLoc : String)
    (g0 g1 g2 : HttpResponse)
    (hcfg : ¬ (cfg.endpoint = "" ∨ cfg.api_key = "" ∨ cfg.api_version = "" ∨
      cfg.analyzer_name = ""))
    (hpost : env.postResult = Except.ok post)
    (hpc : post.status_code < 400)
    (hop : headerGet post.headers "Operation-Location" = some opLoc)
    (hopne : opLoc ≠ "")
    (h0 : env.getResult 0 = Except.ok g0) (h0c : g0.status_code < 400)
    (h0s : pollStatusOf g0.body = Except.ok "running")
    (h1 : env.getResult 1 = Except.ok g1) (h1c : g1.status_code < 400)
    (h1s : pollStatusOf g1.body = Except.ok "running")
    (h2 : env.getResult 2 = Except.ok g2) (h2c : g2.status_code < 400)
    (h2s : pollStatusOf g2.body = Except.ok "succeeded") :
    pollForResult env cfg.api_key 60 2 = ⟨Except.ok g2.body, 3, 2⟩ ∧
    (analyze_document cfg env document_id content filename).gets = 3 ∧
    (analyze_document cfg env document_id content filename).sleeps = 2 ∧
    (analyze_document cfg env document_id content filename).response =
      (match parseAnalysisResult document_id g2.body with
       | .error e => wrapError document_id e
       | .ok r => r) := by
  have c0 := pollClassify_retry g0 h0c h0s
  have c1 := pollClassify_retry g1 h1c h1s
  have c2 := pollClassify_success g2 h2c h2s
  have s3 : pollGo env cfg.api_key 60 2 (0 + 1 + 1) 58 = ⟨Except.ok g2.body, 1, 0⟩ :=
    pollGo_step_success env cfg.api_key 60 2 (0 + 1 + 1) 57 g2 h2 c2
  have s2 : pollGo env cfg.api_key 60 2 (0 + 1) 59 =
      ⟨(pollGo env cfg.api_key 60 2 (0 + 1 + 1) 58).result,
       (pollGo env cfg.api_key 60 2 (0 + 1 + 1) 58).gets + 1,
       (pollGo env cfg.api_key 60 2 (0 + 1 + 1) 58).sleeps + 1⟩ :=
    pollGo_step_retry env cfg.api_key 60 2 (0 + 1) 58 g1 h1 c1
  have s1 : pollGo env cfg.api_key 60 2 0 60 =
      ⟨(pollGo env cfg.api_key 60 2 (0 + 1) 59).result,
       (pollGo env cfg.api_key 60 2 (0 + 1) 59).gets + 1,
       (pollGo env cfg.api_key 60 2 (0 + 1) 59).sleeps + 1⟩ :=
    pollGo_step_retry env cfg.api_key 60 2 0 59 g0 h0 c0
  have hpoll : pollForResult env cfg.api_key 60 2 = ⟨Except.ok g2.body, 3, 2⟩ := by
    show pollGo env cfg.api_key 60 2 0 60 = _
    rw [s1, s2, s3]
  have h400 : ¬ (400 ≤ post.status_code) := by omega
  have hcond : ¬ (headerGet post.headers "Operation-Location" = Option.none ∨
      headerGet post.headers "Operation-Location" = some "") := by
    rw [hop]
    simp [hopne]
  have ht : tryAnalyze cfg env document_id =
      (match parseAnalysisResult document_id g2.body with
       | .error e => ⟨Except.error e, 3, 2⟩
       | .ok r => ⟨Except.ok r, 3, 2⟩) := by
    simp only [tryAnalyze, hpost, if_neg h400, if_neg hcond, hpoll]
  have hana : analyze_document cfg env document_id content filename =
      (match parseAnalysisResult document_id g2.body with
       | .error e => ⟨wrapError document_id e, [submitRequest cfg], 3, 2⟩
       | .ok r => ⟨r, [submitRequest cfg], 3, 2⟩) := by
    unfold analyze_document
    rw [if_neg hcfg, ht]
    cases parseAnalysisResult document_id g2.body <;> rfl
  refine ⟨hpoll, ?_, ?_, ?_⟩
  · rw [hana]; cases parseAnalysisResult document_id g2.body <;> rfl
  · rw [hana]; cases parseAnalysisResult document_id g2.body <;> rfl
  · rw [hana]; cases parseAnalysisResult document_id g2.body <;> rfl

theorem C5_poll_three_rounds_witness :
    pollForResult envHappy cfgOk.api_key 60 2 = ⟨Except.ok respSucceeded.body, 3, 2⟩ ∧
    (analyze_document cfgOk envHappy "doc-1" [37] "doc.pdf").gets = 3 ∧
    (analyze_document cfgOk envHappy "doc-1" [37] "doc.pdf").sleeps = 2 ∧
    (analyze_document cfgOk envHappy "doc-1" [37] "doc.pdf").response =
      (match parseAnalysisResult "doc-1" respSucceeded.body with
       | .error e => wrapError "doc-1" e
       | .ok r => r) :=
  C5_poll_three_rounds cfgOk envHappy "doc-1" [37] "doc.pdf" resp202
    "https://cu.example.test/op/1" respRunning respRunning respSucceeded
    (by decide) rfl (by decide) rfl (by decide)
    rfl (by decide) rfl
    rfl (by decide) rfl
    rfl (by decide) rfl

/-- C8: with a configured service, when the submission response is not an
HTTP error but carries no truthy Operation-Location header, the analyze
call returns `status="error"` with the message naming the missing
header. -/
theorem C8_missing_operation_location (cfg : ServiceConfig) (env : Env)
    (document_id : String) (content : List Nat) (filename : String) (post : HttpResponse)
    (hcfg : ¬ (cfg.endpoint = "" ∨ cfg.api_key = "" ∨ cfg.api_version = "" ∨
      cfg.analyzer_name = ""))
    (hpost : env.postResult = Except.ok post)
    (hcode : post.status_code < 400)
    (hop : headerGet post.headers "Operation-Location" = Option.none ∨
      headerGet post.headers "Operation-Location" = some "") :
    (analyze_document cfg env document_id content filename).response.status = "error" ∧
    (analyze_document cfg env document_id content filename).response.error_message
      = some "No Operation-Location header in response" := by
  have h400 : ¬ (400 ≤ post.status_code) := by omega
  have ht : tryAnalyze cfg env document_id =
      ⟨Except.error (.exn "No Operation-Location header in response"), 0, 0⟩ := by
    simp only [tryAnalyze, hpost, if_neg h400, if_pos hop]
  unfold analyze_document
  rw [if_neg hcfg, ht]
  exact ⟨rfl, rfl⟩

theorem C8_missing_operation_location_witness :
    (analyze_document cfgOk envNoHeader "doc-1" [37] "doc.pdf").response.status
        = "error" ∧
    (analyze_document cfgOk envNoHeader "doc-1" [37] "doc.pdf").response.error_message
        = some "No Operation-Location header in response" :=
  C8_missing_operation_location cfgOk envNoHeader "doc-1" [37] "doc.pdf" respNoHeader
    (by decide) rfl (by decide) (Or.inl rfl)

/-- The fields mapping of the C7 payload:
`{"A": {"value": "x", "confidence": 0.9}, "B": {"value": null}}`. -/
def c7fields : List (String × PyValue) :=
  [("A", .dict [("value", .str "x"), ("confidence", .num ((9 : Rat) / 10))]),
   ("B", .dict [("value", PyValue.none)])]

/-- The terminal payload of claim C7. -/
def c7payload : PyValue :=
  .dict [("analyzeResult", .dict [("fields", .dict c7fields)])]

/-- C7: on the payload whose fields are `{"A": {"value": "x",
"confidence": 0.9}, "B": {"value": null}}` the parser emits exactly the
single field A with value "x" and confidence 0.9; and in general every
emitted field has a non-null resolved value and comes from a non-null
fields entry — null entries and null resolved values are never
emitted. -/
theorem C7_parse_omits_null_fields :
    parseFields c7payload =
      Except.ok [⟨"A", .str "x", .num ((9 : Rat) / 10)⟩] ∧
    (∀ kvs fs, parseLoop kvs = Except.ok fs → ∀ f, f ∈ fs →
      f.value.isNone = false ∧ ∃ fd, (f.field_name, fd) ∈ kvs ∧ fd ≠ PyValue.none) :=
  ⟨rfl, fun kvs fs h => parseLoop_sound kvs fs h⟩

theorem C7_parse_omits_null_fields_witness :
    parseFields c7payload =
      Except.ok [⟨"A", .str "x", .num ((9 : Rat) / 10)⟩] ∧
    (∀ f, f ∈ [(⟨"A", .str "x", .num ((9 : Rat) / 10)⟩ : ExtractedField)] →
      f.value.isNone = false) :=
  ⟨C7_parse_omits_null_fields.1,
   fun f hf =>
    (C7_parse_omits_null_fields.2 c7fields
      [⟨"A", .str "x", .num ((9 : Rat) / 10)⟩] rfl f hf).1⟩

/-- C10 counterexample: a field whose `value` is falsy but non-null (0)
and whose `content` is falsy but non-null (the empty string) is NOT
omitted — the parser emits it with the empty string as its value,
because `value or content` yields the content and only `None` resolved
values are skipped. -/
theorem C10_falsy_content_counterexample :
    parseLoop [("C", .dict [("value", .int 0), ("content", .str "")])] =
      Except.ok [⟨"C", .str "", PyValue.none⟩] ∧
    ¬ parseLoop [("C", .dict [("value", .int 0), ("content", .str "")])] =
      Except.ok [] :=
  ⟨rfl, fun h =>
    List.noConfusion (Except.ok.inj
      ((rfl : parseLoop [("C", .dict [("value", .int 0), ("content", .str "")])] =
        Except.ok [⟨"C", .str "", PyValue.none⟩]).symm.trans h))⟩

/-- C10 (amended): when the `value` entry is falsy (null, absent, 0, "",
false, ...), the resolved value is the `content` entry; the field is
omitted exactly when that resolved `content` is null or absent — a falsy
but non-null `content` is still emitted as the field value. -/
theorem C10_falsy_value_falls_back_to_content (field_name : String)
    (kvs : List (String × PyValue))
    (h : (getOpt kvs "value").truthy = false) :
    extractField field_name (.dict kvs) =
      Except.ok (if (getOpt kvs "content").isNone then Option.none
        else some ⟨field_name, getOpt kvs "content", getOpt kvs "confidence"⟩) := by
  have hv : pyOr (getOpt kvs "value") (getOpt kvs "content") = getOpt kvs "content" := by
    unfold pyOr
    rw [h]
    exact if_neg Bool.false_ne_true
  simp only [extractField, hv]
  cases hiso : (getOpt kvs "content").isNone <;> simp [hiso]

theorem C10_falsy_value_falls_back_to_content_witness :
    extractField "D" (.dict [("value", .int 0), ("content", .str "note")]) =
      Except.ok (if (getOpt [("value", .int 0), ("content", .str "note")] "content").isNone
        then Option.none
        else some ⟨"D", getOpt [("value", .int 0), ("content", .str "note")] "content",
          getOpt [("value", .int 0), ("content", .str "note")] "confidence"⟩) :=
  C10_falsy_value_falls_back_to_content "D"
    [("value", .int 0), ("content", .str "note")] rfl

/-- C1 (code evaluated at the failing input): the submission POST issued
by `analyze_document` targets `{endpoint}/{analyzerName}:analyze?api-version={version}`
and carries the subscription-key header, but its JSON body is the
constant `{"inputs": [{"url": TEST_FILE_URL}]}` with the hardcoded test
blob URL of line 72 — identical for different caller inputs and different
from any caller-side document URL (such as the public storage URL the
route obtains). -/
theorem C1_submit_body_is_hardcoded :
    (analyze_document cfgOk envHappy "doc-1" [37] "doc.pdf").posts
        = [submitRequest cfgOk] ∧
    (analyze_document cfgOk envHappy "doc-1" [1, 2, 3] "other.pdf").posts
        = (analyze_document cfgOk envHappy "doc-1" [37] "doc.pdf").posts ∧
    (submitRequest cfgOk).url = analyzeUrl cfgOk ∧
    (submitRequest cfgOk).headers.lookup "Ocp-Apim-Subscription-Key"
        = some cfgOk.api_key ∧
    (submitRequest cfgOk).body
        = .dict [("inputs", .list [.dict [("url", .str TEST_FILE_URL)]])] ∧
    TEST_FILE_URL ≠ "https://dl.example.test/file/bucket/20250101_abcd1234_doc.pdf" :=
  ⟨rfl, rfl, rfl, rfl, rfl, by decide⟩

/-- C2: the synchronous analyze route uploads the body to object storage,
invokes the (spec-modelled) URL-taking analysis client with the returned
public URL, and answers 200 with exactly the result of the analysis
client; when the storage upload raises, it answers
`HTTPException(500, "Failed to analyze document: ...")`; the file handle
is closed on both paths. -/
theorem C2_route_upload_then_analyze (env : RouteEnv) (content : List Nat)
    (filename contentType : Option String) :
    (∀ file_id public_url, env.uploadResult = Except.ok (file_id, public_url) →
      (routeAnalyzeDocument env content filename contentType).uploads =
        [(content, orDefault filename "unknown.pdf",
          orDefault contentType "application/octet-stream")] ∧
      (routeAnalyzeDocument env content filename contentType).analyzeCalls =
        [(public_url, orDefault filename "unknown.pdf")] ∧
      (routeAnalyzeDocument env content filename contentType).response =
        RouteResponse.ok (env.analyzeFromUrl public_url (orDefault filename "unknown.pdf")) ∧
      (routeAnalyzeDocument env content filename contentType).fileClosed = true) ∧
    (∀ e, env.uploadResult = Except.error e →
      (routeAnalyzeDocument env content filename contentType).response =
        RouteResponse.httpError 500 ("Failed to analyze document: " ++ excMessage e) ∧
      (routeAnalyzeDocument env content filename contentType).fileClosed = true) := by
  constructor
  · intro file_id public_url hup
    simp [routeAnalyzeDocument, hup]
  · intro e hup
    simp [routeAnalyzeDocument, hup]

/-- A concrete route environment for the C2 witness. -/
def routeEnvW : RouteEnv :=
  ⟨Except.ok ("fid-1", "https://dl.example.test/file/bucket/x.pdf"),
   fun _url _fname => ⟨"doc-9", [], "success", Option.none, Option.none⟩⟩

theorem C2_route_upload_then_analyze_witness :
    (routeAnalyzeDocument routeEnvW [37] (some "doc.pdf") (some "application/pdf")).uploads =
      [([37], "doc.pdf", "application/pdf")] ∧
    (routeAnalyzeDocument routeEnvW [37] (some "doc.pdf") (some "application/pdf")).analyzeCalls =
      [("https://dl.example.test/file/bucket/x.pdf", "doc.pdf")] ∧
    (routeAnalyzeDocument routeEnvW [37] (some "doc.pdf") (some "application/pdf")).response =
      RouteResponse.ok (routeEnvW.analyzeFromUrl
        "https://dl.example.test/file/bucket/x.pdf" "doc.pdf") ∧
    (routeAnalyzeDocument routeEnvW [37] (some "doc.pdf") (some "application/pdf")).fileClosed
      = true :=
  (C2_route_upload_then_analyze routeEnvW [37] (some "doc.pdf") (some "application/pdf")).1
    "fid-1" "https://dl.example.test/file/bucket/x.pdf" rfl

end ProtocolCU
